import Mathlib

/-!
Shallow embedding of `src/vector/layer.rs` from the `gdal` Rust crate.

The file under verification is a thin safe wrapper over the OGR C API.
Every operation of the wrapper forwards to native calls; we model the
native library as an `Oracle` that supplies the return value of each
native call, and we record the sequence of native calls each wrapper
operation issues as an explicit trace (`List NativeCall`).  Rust panics
(`unwrap` on a `CString` failure, `assert_eq!` failure, slice indexing
out of bounds) are modelled as a `Panic` outcome; Rust `Result` values
are modelled with `Except`.
-/

namespace GdalLayer

/-- Native object pointers (`*const c_void`) are modelled as opaque numeric
handles. -/
abbrev Handle := Nat

/-- Rust byte strings (`&str` / `String` contents) are modelled as lists of
bytes, so that interior NUL bytes are observable. -/
abbrev RStr := List Nat

/-- `ogr_enums::OGRErr`: status codes returned by OGR calls.
`OGRERR_NONE` is the success value. -/
inductive OGRErr where
  | NONE
  | NOT_ENOUGH_DATA
  | NOT_ENOUGH_MEMORY
  | UNSUPPORTED_GEOMETRY_TYPE
  | UNSUPPORTED_OPERATION
  | CORRUPT_DATA
  | FAILURE
  | UNSUPPORTED_SRS
  | INVALID_HANDLE
  deriving DecidableEq, Repr

/-- `ogr_enums::OGRFieldType`: an opaque enumeration, only forwarded. -/
abbrev OGRFieldType := Nat

/-- `vector::FieldValue`: tagged union of attribute values.  The `f64`
payload of `RealValue` is only forwarded (never computed with), so it is
modelled as a rational. -/
inductive FieldValue where
  | StringValue (v : RStr)
  | IntegerValue (v : Int)
  | RealValue (v : Rat)
  deriving DecidableEq, Repr

/-- One call across the FFI boundary, with its arguments.  A geometry
argument of `none` models the C `NULL` pointer. -/
inductive NativeCall where
  | OGR_L_GetLayerDefn (layer : Handle)
  | OGR_L_SetSpatialFilter (layer : Handle) (geometry : Option Handle)
  | OGR_L_GetNextFeature (layer : Handle)
  | OGR_F_Create (defn : Handle)
  | OGR_F_SetGeometryDirectly (feature : Handle) (geometry : Handle)
  | OGR_F_GetFieldIndex (feature : Handle) (name : RStr)
  | OGR_F_SetFieldString (feature : Handle) (idx : Int) (value : RStr)
  | OGR_F_SetFieldInteger (feature : Handle) (idx : Int) (value : Int)
  | OGR_F_SetFieldDouble (feature : Handle) (idx : Int) (value : Rat)
  | OGR_L_CreateFeature (layer : Handle) (feature : Handle)
  | OGR_Fld_Create (name : RStr) (ftype : OGRFieldType)
  | OGR_Fld_SetWidth (fld : Handle) (width : Int)
  | OGR_Fld_SetPrecision (fld : Handle) (precision : Int)
  | OGR_Fld_Destroy (fld : Handle)
  | OGR_L_CreateField (layer : Handle) (fld : Handle) (approxOk : Int)
  deriving DecidableEq, Repr

/-- The native library's visible behaviour: for each native call that
returns a value, the oracle gives that value as a function of the call's
arguments. -/
structure Oracle where
  /-- result of `OGR_L_GetLayerDefn`. -/
  getLayerDefn : Handle → Handle
  /-- feature handle allocated by `OGR_F_Create` from a defn handle. -/
  fCreate : Handle → Handle
  /-- status of `OGR_F_SetGeometryDirectly feature geometry`. -/
  setGeometryDirectly : Handle → Handle → OGRErr
  /-- result of `OGR_F_GetFieldIndex feature name`. -/
  getFieldIndex : Handle → RStr → Int
  /-- status of `OGR_L_CreateFeature layer feature`. -/
  lCreateFeature : Handle → Handle → OGRErr
  /-- field-defn handle allocated by `OGR_Fld_Create name ftype`. -/
  fldCreate : RStr → OGRFieldType → Handle
  /-- status of `OGR_L_CreateField layer fld approxOk`. -/
  lCreateField : Handle → Handle → Int → OGRErr
  /-- result of the n-th `OGR_L_GetNextFeature` on a layer handle:
  `none` models the C `NULL` exhaustion sentinel. -/
  getNextFeature : Handle → Nat → Option Handle

/-- Ways the Rust code can panic. -/
inductive Panic where
  /-- `CString::new(..).unwrap()` on a string with an interior NUL byte. -/
  | unwrapNone
  /-- slice indexing past the end (`values[i]`). -/
  | indexOutOfBounds
  /-- `assert_eq!` failure. -/
  | assertFailed
  deriving DecidableEq, Repr

/-- `errors::ErrorKind` — the single error kind produced in this file. -/
inductive GdalError where
  | OgrError (code : OGRErr) (method : String)
  deriving DecidableEq, Repr

/-- Outcome of running a Rust function body: either a panic or a normal
return, together with the native calls issued up to that point. -/
inductive Outcome (α : Type) where
  | panicked (p : Panic) (trace : List NativeCall)
  | returned (value : α) (trace : List NativeCall)
  deriving DecidableEq, Repr

/-- The trace of native calls issued by an outcome, panicking or not. -/
def Outcome.trace : Outcome α → List NativeCall
  | .panicked _ t => t
  | .returned _ t => t

/-- `CString::new`: succeeds exactly when the byte string has no NUL byte
(Rust returns `Err(NulError)` otherwise, and `.unwrap()` panics). -/
def cstringNew (s : RStr) : Option RStr :=
  if 0 ∈ s then none else some s

/-- `vector::defn::Defn`: wrapper around a native defn handle. -/
structure Defn where
  c_defn : Handle
  deriving DecidableEq, Repr

/-- `vector::Geometry` (external collaborator): wrapper around a native
geometry handle; `c_geometry()` and `into_c_geometry()` both expose it. -/
structure Geometry where
  c_geometry : Handle
  deriving DecidableEq, Repr

/-- `Layer`: non-owning native layer handle plus the cached schema. -/
structure Layer where
  c_layer : Handle
  defn : Defn
  deriving DecidableEq, Repr

/-- `vector::Feature` (external collaborator): a schema borrow plus a
native feature handle, as built by `Feature::_with_c_feature`. -/
structure Feature where
  defn : Defn
  c_feature : Handle
  deriving DecidableEq, Repr

/-- `FieldDefn`: owned wrapper around a native field-schema handle. -/
structure FieldDefn where
  c_obj : Handle
  deriving DecidableEq, Repr

/-- `Layer::_with_c_layer`: fetches the layer's defn handle once and caches
it in the `defn` field. -/
def Layer._with_c_layer (o : Oracle) (c_layer : Handle) :
    Layer × List NativeCall :=
  let c_defn := o.getLayerDefn c_layer
  ({ c_layer := c_layer, defn := { c_defn := c_defn } },
   [NativeCall.OGR_L_GetLayerDefn c_layer])

/-- `Layer::set_spatial_filter` (takes `&self`): one forwarding call.  The
returned `Layer` is the unchanged receiver. -/
def Layer.set_spatial_filter (self : Layer) (geometry : Geometry) :
    Layer × List NativeCall :=
  (self, [NativeCall.OGR_L_SetSpatialFilter self.c_layer (some geometry.c_geometry)])

/-- `Layer::clear_spatial_filter` (takes `&self`): forwards `null()`. -/
def Layer.clear_spatial_filter (self : Layer) : Layer × List NativeCall :=
  (self, [NativeCall.OGR_L_SetSpatialFilter self.c_layer none])

/-- `Layer::create_feature`: allocate a feature from the cached defn,
attach the geometry, submit to the layer; each fallible native status is
checked against `OGRERR_NONE`. -/
def Layer.create_feature (o : Oracle) (self : Layer) (geometry : Geometry) :
    Outcome (Layer × Except GdalError Unit) :=
  let c_feature := o.fCreate self.defn.c_defn
  let c_geometry := geometry.c_geometry
  let rv := o.setGeometryDirectly c_feature c_geometry
  let t1 := [NativeCall.OGR_F_Create self.defn.c_defn,
             NativeCall.OGR_F_SetGeometryDirectly c_feature c_geometry]
  if rv ≠ OGRErr.NONE then
    .returned (self, .error (.OgrError rv "OGR_F_SetGeometryDirectly")) t1
  else
    let rv2 := o.lCreateFeature self.c_layer c_feature
    let t2 := t1 ++ [NativeCall.OGR_L_CreateFeature self.c_layer c_feature]
    if rv2 ≠ OGRErr.NONE then
      .returned (self, .error (.OgrError rv2 "OGR_L_CreateFeature")) t2
    else
      .returned (self, .ok ()) t2

/-- The field-setting loop of `create_feature_fields`:
`for (i, fd) in field_names.iter().enumerate()`, acting on the enumerated
list.  For each pair: build the C string for the name (`unwrap` panics on a
NUL byte), call `OGR_F_GetFieldIndex`, index `values[i]` (panics when out
of bounds), then dispatch on the variant. -/
def setFeatureFields (o : Oracle) (c_feature : Handle)
    (values : List FieldValue) : List (Nat × RStr) → Outcome Unit
  | [] => .returned () []
  | (i, fd) :: rest =>
    match cstringNew fd with
    | none => .panicked .unwrapNone []
    | some c_str_field_name =>
      let idx := o.getFieldIndex c_feature c_str_field_name
      let tIdx := [NativeCall.OGR_F_GetFieldIndex c_feature c_str_field_name]
      match values[i]? with
      | none => .panicked .indexOutOfBounds tIdx
      | some val =>
        let step : Outcome Unit :=
          match val with
          | .StringValue v =>
            match cstringNew v with
            | none => .panicked .unwrapNone tIdx
            | some cv =>
              .returned () (tIdx ++ [NativeCall.OGR_F_SetFieldString c_feature idx cv])
          | .IntegerValue v =>
            .returned () (tIdx ++ [NativeCall.OGR_F_SetFieldInteger c_feature idx v])
          | .RealValue v =>
            .returned () (tIdx ++ [NativeCall.OGR_F_SetFieldDouble c_feature idx v])
        match step with
        | .panicked p t => .panicked p t
        | .returned () t =>
          match setFeatureFields o c_feature values rest with
          | .panicked p t2 => .panicked p (t ++ t2)
          | .returned () t2 => .returned () (t ++ t2)

/-- `Layer::create_feature_fields`: like `create_feature`, but sets the
named fields between geometry attachment and submission. -/
def Layer.create_feature_fields (o : Oracle) (self : Layer)
    (geometry : Geometry) (field_names : List RStr)
    (values : List FieldValue) : Outcome (Layer × Except GdalError Unit) :=
  let c_feature := o.fCreate self.defn.c_defn
  let c_geometry := geometry.c_geometry
  let rv := o.setGeometryDirectly c_feature c_geometry
  let t1 := [NativeCall.OGR_F_Create self.defn.c_defn,
             NativeCall.OGR_F_SetGeometryDirectly c_feature c_geometry]
  if rv ≠ OGRErr.NONE then
    .returned (self, .error (.OgrError rv "OGR_F_SetGeometryDirectly")) t1
  else
    match setFeatureFields o c_feature values field_names.enum with
    | .panicked p t => .panicked p (t1 ++ t)
    | .returned () t =>
      let rv2 := o.lCreateFeature self.c_layer c_feature
      let t2 := t1 ++ t ++ [NativeCall.OGR_L_CreateFeature self.c_layer c_feature]
      if rv2 ≠ OGRErr.NONE then
        .returned (self, .error (.OgrError rv2 "OGR_L_CreateFeature")) t2
      else
        .returned (self, .ok ()) t2

/-- `FeatureIterator`: holds only a borrow of the layer. -/
structure FeatureIterator where
  layer : Layer
  deriving DecidableEq, Repr

/-- `FeatureIterator::_with_layer`. -/
def FeatureIterator._with_layer (layer : Layer) : FeatureIterator :=
  { layer := layer }

/-- `Layer::features`. -/
def Layer.features (self : Layer) : FeatureIterator :=
  FeatureIterator._with_layer self

/-- `Iterator::next` for `FeatureIterator`: one `OGR_L_GetNextFeature`
call; `n` is how many times `next` has been called before on this native
cursor, so `o.getNextFeature layer n` is what the native call returns now
(`none` = `NULL`).  A non-null handle is wrapped with the layer's cached
defn via `Feature::_with_c_feature`. -/
def FeatureIterator.next (o : Oracle) (self : FeatureIterator) (n : Nat) :
    Option Feature × List NativeCall :=
  let c_feature := o.getNextFeature self.layer.c_layer n
  (match c_feature with
   | none => none
   | some h => some { defn := self.layer.defn, c_feature := h },
   [NativeCall.OGR_L_GetNextFeature self.layer.c_layer])

/-- `impl Drop for FieldDefn`: one `OGR_Fld_Destroy` on the owned handle. -/
def FieldDefn.drop (self : FieldDefn) : List NativeCall :=
  [NativeCall.OGR_Fld_Destroy self.c_obj]

/-- `FieldDefn::new`: `CString::new(name).unwrap()` (panics on a NUL
byte), then `OGR_Fld_Create`. -/
def FieldDefn.new (o : Oracle) (name : RStr) (field_type : OGRFieldType) :
    Outcome FieldDefn :=
  match cstringNew name with
  | none => .panicked .unwrapNone []
  | some c_str =>
    .returned { c_obj := o.fldCreate c_str field_type }
      [NativeCall.OGR_Fld_Create c_str field_type]

/-- `FieldDefn::set_width`: one forwarding call. -/
def FieldDefn.set_width (self : FieldDefn) (width : Int) : List NativeCall :=
  [NativeCall.OGR_Fld_SetWidth self.c_obj width]

/-- `FieldDefn::set_precision`: one forwarding call. -/
def FieldDefn.set_precision (self : FieldDefn) (precision : Int) :
    List NativeCall :=
  [NativeCall.OGR_Fld_SetPrecision self.c_obj precision]

/-- `FieldDefn::add_to_layer`: `OGR_L_CreateField(layer, fld, 1)` followed
by `assert_eq!(rv, OGRERR_NONE)` — a failing status panics, it is never
returned as an error value. -/
def FieldDefn.add_to_layer (o : Oracle) (self : FieldDefn) (layer : Layer) :
    Outcome Unit :=
  let rv := o.lCreateField layer.c_layer self.c_obj 1
  let t := [NativeCall.OGR_L_CreateField layer.c_layer self.c_obj 1]
  if rv = OGRErr.NONE then .returned () t else .panicked .assertFailed t

/-- `Layer::create_defn_fields`: for each `(name, type)` pair, build a
`FieldDefn` and register it.  Each `fdefn` is a loop-local value, so Rust
drops it at the end of the iteration (emitting `OGR_Fld_Destroy`), and
also during unwinding when `add_to_layer`'s assertion panics. -/
def Layer.create_defn_fields (o : Oracle) (self : Layer) :
    List (RStr × OGRFieldType) → Outcome Unit
  | [] => .returned () []
  | fd :: rest =>
    match FieldDefn.new o fd.1 fd.2 with
    | .panicked p t => .panicked p t
    | .returned fdefn t1 =>
      match FieldDefn.add_to_layer o fdefn self with
      | .panicked p t2 => .panicked p (t1 ++ t2 ++ fdefn.drop)
      | .returned () t2 =>
        match Layer.create_defn_fields o self rest with
        | .panicked p t3 => .panicked p (t1 ++ t2 ++ fdefn.drop ++ t3)
        | .returned () t3 => .returned () (t1 ++ t2 ++ fdefn.drop ++ t3)

/-- A `(field_name, value)` pair that the field-setting loop handles
without panicking: no NUL byte in the name, nor in a string value. -/
def cleanPairB (name : RStr) (val : FieldValue) : Bool :=
  decide (0 ∉ name) &&
    (match val with
     | .StringValue v => decide (0 ∉ v)
     | _ => true)

/-- The native calls that the spec says the field-setting loop makes for
one pair: resolve the index by name, then one set-call per variant. -/
def fieldCallsSpec (o : Oracle) (c_feature : Handle) :
    List (RStr × FieldValue) → List NativeCall
  | [] => []
  | (name, val) :: rest =>
    let idx := o.getFieldIndex c_feature name
    NativeCall.OGR_F_GetFieldIndex c_feature name ::
    (match val with
     | .StringValue v => NativeCall.OGR_F_SetFieldString c_feature idx v
     | .IntegerValue v => NativeCall.OGR_F_SetFieldInteger c_feature idx v
     | .RealValue v => NativeCall.OGR_F_SetFieldDouble c_feature idx v) ::
    fieldCallsSpec o c_feature rest

/-- The native calls `create_defn_fields` makes per `(name, type)` pair
when every registration succeeds: create the field defn, register it,
destroy it when the loop-local `fdefn` goes out of scope. -/
def defnFieldsTrace (o : Oracle) (l : Layer) :
    List (RStr × OGRFieldType) → List NativeCall
  | [] => []
  | fd :: rest =>
    [NativeCall.OGR_Fld_Create fd.1 fd.2,
     NativeCall.OGR_L_CreateField l.c_layer (o.fldCreate fd.1 fd.2) 1,
     NativeCall.OGR_Fld_Destroy (o.fldCreate fd.1 fd.2)] ++
    defnFieldsTrace o l rest

/-- Recognizes a feature-submission call (`OGR_L_CreateFeature`). -/
def isSubmitCall : NativeCall → Bool
  | .OGR_L_CreateFeature _ _ => true
  | _ => false

/-- Recognizes a field-setting call (`OGR_F_SetFieldString/Integer/Double`). -/
def isSetFieldCall : NativeCall → Bool
  | .OGR_F_SetFieldString _ _ _ => true
  | .OGR_F_SetFieldInteger _ _ _ => true
  | .OGR_F_SetFieldDouble _ _ _ => true
  | _ => false

/-- Recognizes `OGR_Fld_Destroy`. -/
def isDestroyCall : NativeCall → Bool
  | .OGR_Fld_Destroy _ => true
  | _ => false

/-- Recognizes `OGR_Fld_Create`. -/
def isFldCreateCall : NativeCall → Bool
  | .OGR_Fld_Create _ _ => true
  | _ => false

/-- A concrete native library in which every call succeeds, used to
instantiate universally quantified theorems at checkable inputs. -/
def okOracle : Oracle where
  getLayerDefn := fun h => h + 100
  fCreate := fun d => d + 1
  setGeometryDirectly := fun _ _ => .NONE
  getFieldIndex := fun _ n => Int.ofNat n.length
  lCreateFeature := fun _ _ => .NONE
  fldCreate := fun n _ => n.length + 50
  lCreateField := fun _ _ _ => .NONE
  getNextFeature := fun _ n => if n < 2 then some (n + 10) else none

/-- A native library whose geometry attachment fails. -/
def failGeomOracle : Oracle :=
  { okOracle with setGeometryDirectly := fun _ _ => .FAILURE }

/-- A native library whose feature submission fails. -/
def failSubmitOracle : Oracle :=
  { okOracle with lCreateFeature := fun _ _ => .UNSUPPORTED_OPERATION }

/-- A native library whose field registration fails. -/
def failFieldOracle : Oracle :=
  { okOracle with lCreateField := fun _ _ _ => .FAILURE }

/-- `Layer::defn`: returns a borrow of the cached `defn` field.  (Named
`defn_fn` here only because the structure projection is already called
`defn`.) -/
def Layer.defn_fn (self : Layer) : Defn := self.defn

/-- A sample layer value. -/
def sampleLayer : Layer := { c_layer := 7, defn := { c_defn := 107 } }

/-- A sample geometry value. -/
def sampleGeom : Geometry := { c_geometry := 3 }

/-- C5: each `next()` call on the iterator returned by `features()`
issues exactly one `OGR_L_GetNextFeature` on the layer's handle; it
yields `some` Feature (built from the layer's cached defn and the
returned handle) exactly when the native call returns a non-null handle,
and `none` exactly when the native call returns the null sentinel. -/
theorem features_next_characterization :
    (∀ l : Layer, l.features = { layer := l }) ∧
    (∀ (o : Oracle) (it : FeatureIterator) (n : Nat),
      FeatureIterator.next o it n =
        ((o.getNextFeature it.layer.c_layer n).map
          (fun h => { defn := it.layer.defn, c_feature := h }),
         [NativeCall.OGR_L_GetNextFeature it.layer.c_layer])) := by
  refine ⟨fun l => rfl, fun o it n => ?_⟩
  unfold FeatureIterator.next
  cases o.getNextFeature it.layer.c_layer n <;> rfl

/-- C7: `set_spatial_filter` forwards the geometry's handle to
`OGR_L_SetSpatialFilter` and `clear_spatial_filter` forwards the null
geometry to the same native call; both return no value and leave the
receiver (its native handle and cached defn) unchanged. -/
theorem spatial_filter_forwarding :
    ∀ (l : Layer) (g : Geometry),
      l.set_spatial_filter g =
        (l, [NativeCall.OGR_L_SetSpatialFilter l.c_layer (some g.c_geometry)]) ∧
      l.clear_spatial_filter =
        (l, [NativeCall.OGR_L_SetSpatialFilter l.c_layer none]) :=
  fun _ _ => ⟨rfl, rfl⟩

/-- C6: the `Defn` returned by `defn()` is the one fetched from the
native layer exactly once at construction (`_with_c_layer` issues a
single `OGR_L_GetLayerDefn` and caches its result), and no layer
operation replaces or mutates the cached field: `features`,
`set_spatial_filter` and `clear_spatial_filter` return the receiver
unchanged, and the two `&mut self` operations `create_feature` and
`create_feature_fields` always return the layer exactly as received. -/
theorem defn_cached_once_and_never_mutated :
    (∀ (o : Oracle) (h : Handle),
      Layer._with_c_layer o h =
        ({ c_layer := h, defn := { c_defn := o.getLayerDefn h } },
         [NativeCall.OGR_L_GetLayerDefn h])) ∧
    (∀ l : Layer, l.defn_fn = l.defn) ∧
    (∀ l : Layer, (l.features).layer = l) ∧
    (∀ (l : Layer) (g : Geometry), (l.set_spatial_filter g).1 = l) ∧
    (∀ l : Layer, l.clear_spatial_filter.1 = l) ∧
    (∀ (o : Oracle) (l : Layer) (g : Geometry),
      ∃ e t, Layer.create_feature o l g = .returned (l, e) t) ∧
    (∀ (o : Oracle) (l : Layer) (g : Geometry) (ns : List RStr)
        (vs : List FieldValue) (l' : Layer) (e : Except GdalError Unit)
        (t : List NativeCall),
      Layer.create_feature_fields o l g ns vs = .returned (l', e) t →
        l' = l) := by
  refine ⟨fun o h => rfl, fun l => rfl, fun l => rfl, fun l g => rfl,
    fun l => rfl, ?_, ?_⟩
  · intro o l g
    simp only [Layer.create_feature]
    split
    · exact ⟨_, _, rfl⟩
    · split
      · exact ⟨_, _, rfl⟩
      · exact ⟨_, _, rfl⟩
  · intro o l g ns vs l' e t h
    simp only [Layer.create_feature_fields] at h
    split at h
    · simp only [Outcome.returned.injEq, Prod.mk.injEq] at h
      exact h.1.1.symm
    · split at h
      · cases h
      · split at h <;>
          (simp only [Outcome.returned.injEq, Prod.mk.injEq] at h;
           exact h.1.1.symm)

/-- Closed instantiation of `defn_cached_once_and_never_mutated`'s last
conjunct at a concrete oracle, layer, geometry and field list. -/
theorem defn_cached_once_and_never_mutated_witness :
    (Layer.create_feature_fields okOracle sampleLayer sampleGeom
        [[97]] [FieldValue.IntegerValue 5] =
      .returned (sampleLayer, .ok ())
        [NativeCall.OGR_F_Create 107,
         NativeCall.OGR_F_SetGeometryDirectly 108 3,
         NativeCall.OGR_F_GetFieldIndex 108 [97],
         NativeCall.OGR_F_SetFieldInteger 108 1 5,
         NativeCall.OGR_L_CreateFeature 7 108]) ∧
    sampleLayer = sampleLayer :=
  ⟨by rfl,
   defn_cached_once_and_never_mutated.2.2.2.2.2.2 okOracle sampleLayer
     sampleGeom [[97]] [FieldValue.IntegerValue 5] sampleLayer (.ok ())
     [NativeCall.OGR_F_Create 107,
      NativeCall.OGR_F_SetGeometryDirectly 108 3,
      NativeCall.OGR_F_GetFieldIndex 108 [97],
      NativeCall.OGR_F_SetFieldInteger 108 1 5,
      NativeCall.OGR_L_CreateFeature 7 108]
     (by rfl)⟩

/-- C1: `create_feature` and `create_feature_fields` return
`OgrError (code, "OGR_F_SetGeometryDirectly")` exactly when
`OGR_F_SetGeometryDirectly` returns a non-success status, return
`OgrError (code, "OGR_L_CreateFeature")` exactly when `OGR_L_CreateFeature`
returns a non-success status (reached, for `create_feature_fields`, once
the field-setting loop completes), and otherwise return `Ok(())` — the
success payload is `Unit`, so no feature handle reaches the caller. -/
theorem create_feature_error_map
    (o : Oracle) (l : Layer) (g : Geometry) (ns : List RStr)
    (vs : List FieldValue) (cf : Handle) (rv1 rv2 : OGRErr)
    (tf : List NativeCall)
    (hcf : cf = o.fCreate l.defn.c_defn)
    (h1 : rv1 = o.setGeometryDirectly cf g.c_geometry)
    (h2 : rv2 = o.lCreateFeature l.c_layer cf) :
    (rv1 ≠ OGRErr.NONE →
      Layer.create_feature o l g =
        .returned (l, .error (.OgrError rv1 "OGR_F_SetGeometryDirectly"))
          [.OGR_F_Create l.defn.c_defn,
           .OGR_F_SetGeometryDirectly cf g.c_geometry]) ∧
    (rv1 = OGRErr.NONE → rv2 ≠ OGRErr.NONE →
      Layer.create_feature o l g =
        .returned (l, .error (.OgrError rv2 "OGR_L_CreateFeature"))
          [.OGR_F_Create l.defn.c_defn,
           .OGR_F_SetGeometryDirectly cf g.c_geometry,
           .OGR_L_CreateFeature l.c_layer cf]) ∧
    (rv1 = OGRErr.NONE → rv2 = OGRErr.NONE →
      Layer.create_feature o l g =
        .returned (l, .ok ())
          [.OGR_F_Create l.defn.c_defn,
           .OGR_F_SetGeometryDirectly cf g.c_geometry,
           .OGR_L_CreateFeature l.c_layer cf]) ∧
    (rv1 ≠ OGRErr.NONE →
      Layer.create_feature_fields o l g ns vs =
        .returned (l, .error (.OgrError rv1 "OGR_F_SetGeometryDirectly"))
          [.OGR_F_Create l.defn.c_defn,
           .OGR_F_SetGeometryDirectly cf g.c_geometry]) ∧
    (rv1 = OGRErr.NONE →
      setFeatureFields o cf vs ns.enum = .returned () tf →
      rv2 ≠ OGRErr.NONE →
      Layer.create_feature_fields o l g ns vs =
        .returned (l, .error (.OgrError rv2 "OGR_L_CreateFeature"))
          ([.OGR_F_Create l.defn.c_defn,
            .OGR_F_SetGeometryDirectly cf g.c_geometry] ++ tf ++
           [.OGR_L_CreateFeature l.c_layer cf])) ∧
    (rv1 = OGRErr.NONE →
      setFeatureFields o cf vs ns.enum = .returned () tf →
      rv2 = OGRErr.NONE →
      Layer.create_feature_fields o l g ns vs =
        .returned (l, .ok ())
          ([.OGR_F_Create l.defn.c_defn,
            .OGR_F_SetGeometryDirectly cf g.c_geometry] ++ tf ++
           [.OGR_L_CreateFeature l.c_layer cf])) := by
  subst hcf h1 h2
  refine ⟨?_, ?_, ?_, ?_, ?_, ?_⟩
  · intro hne
    simp [Layer.create_feature, hne]
  · intro he hne
    simp [Layer.create_feature, he, hne]
  · intro he he2
    simp [Layer.create_feature, he, he2]
  · intro hne
    simp [Layer.create_feature_fields, hne]
  · intro he hf hne
    simp [Layer.create_feature_fields, he, hf, hne]
  · intro he hf he2
    simp [Layer.create_feature_fields, he, hf, he2]

/-- Closed instantiation of `create_feature_error_map`: the
geometry-attachment failure case at `failGeomOracle`, the submission
failure case at `failSubmitOracle`, and the success case at `okOracle`,
all on concrete inputs. -/
theorem create_feature_error_map_witness :
    OGRErr.FAILURE ≠ OGRErr.NONE ∧
    (Layer.create_feature failGeomOracle sampleLayer sampleGeom =
      .returned (sampleLayer,
          .error (.OgrError OGRErr.FAILURE "OGR_F_SetGeometryDirectly"))
        [.OGR_F_Create 107, .OGR_F_SetGeometryDirectly 108 3]) ∧
    (Layer.create_feature failSubmitOracle sampleLayer sampleGeom =
      .returned (sampleLayer,
          .error (.OgrError OGRErr.UNSUPPORTED_OPERATION "OGR_L_CreateFeature"))
        [.OGR_F_Create 107, .OGR_F_SetGeometryDirectly 108 3,
         .OGR_L_CreateFeature 7 108]) ∧
    (Layer.create_feature okOracle sampleLayer sampleGeom =
      .returned (sampleLayer, .ok ())
        [.OGR_F_Create 107, .OGR_F_SetGeometryDirectly 108 3,
         .OGR_L_CreateFeature 7 108]) ∧
    (Layer.create_feature_fields failGeomOracle sampleLayer sampleGeom
        [[97]] [FieldValue.IntegerValue 5] =
      .returned (sampleLayer,
          .error (.OgrError OGRErr.FAILURE "OGR_F_SetGeometryDirectly"))
        [.OGR_F_Create 107, .OGR_F_SetGeometryDirectly 108 3]) ∧
    (Layer.create_feature_fields failSubmitOracle sampleLayer sampleGeom
        [[97]] [FieldValue.IntegerValue 5] =
      .returned (sampleLayer,
          .error (.OgrError OGRErr.UNSUPPORTED_OPERATION "OGR_L_CreateFeature"))
        ([.OGR_F_Create 107, .OGR_F_SetGeometryDirectly 108 3] ++
         [.OGR_F_GetFieldIndex 108 [97], .OGR_F_SetFieldInteger 108 1 5] ++
         [.OGR_L_CreateFeature 7 108])) ∧
    (Layer.create_feature_fields okOracle sampleLayer sampleGeom
        [[97]] [FieldValue.IntegerValue 5] =
      .returned (sampleLayer, .ok ())
        ([.OGR_F_Create 107, .OGR_F_SetGeometryDirectly 108 3] ++
         [.OGR_F_GetFieldIndex 108 [97], .OGR_F_SetFieldInteger 108 1 5] ++
         [.OGR_L_CreateFeature 7 108])) :=
  ⟨by decide,
   (create_feature_error_map failGeomOracle sampleLayer sampleGeom
      [[97]] [FieldValue.IntegerValue 5] 108 OGRErr.FAILURE OGRErr.NONE []
      rfl rfl rfl).1 (by decide),
   (create_feature_error_map failSubmitOracle sampleLayer sampleGeom
      [[97]] [FieldValue.IntegerValue 5] 108 OGRErr.NONE
      OGRErr.UNSUPPORTED_OPERATION [] rfl rfl rfl).2.1 rfl (by decide),
   (create_feature_error_map okOracle sampleLayer sampleGeom
      [[97]] [FieldValue.IntegerValue 5] 108 OGRErr.NONE OGRErr.NONE []
      rfl rfl rfl).2.2.1 rfl rfl,
   (create_feature_error_map failGeomOracle sampleLayer sampleGeom
      [[97]] [FieldValue.IntegerValue 5] 108 OGRErr.FAILURE OGRErr.NONE []
      rfl rfl rfl).2.2.2.1 (by decide),
   (create_feature_error_map failSubmitOracle sampleLayer sampleGeom
      [[97]] [FieldValue.IntegerValue 5] 108 OGRErr.NONE
      OGRErr.UNSUPPORTED_OPERATION
      [.OGR_F_GetFieldIndex 108 [97], .OGR_F_SetFieldInteger 108 1 5]
      rfl rfl rfl).2.2.2.2.1 rfl (by rfl) (by decide),
   (create_feature_error_map okOracle sampleLayer sampleGeom
      [[97]] [FieldValue.IntegerValue 5] 108 OGRErr.NONE OGRErr.NONE
      [.OGR_F_GetFieldIndex 108 [97], .OGR_F_SetFieldInteger 108 1 5]
      rfl rfl rfl).2.2.2.2.2 rfl (by rfl) rfl⟩

/-- C9: when `OGR_F_SetGeometryDirectly` reports a non-success status,
both creation functions return the error immediately: the whole trace is
just the allocation and the failed attachment, and that trace contains no
feature-submission call and no field-setting call, so nothing was
submitted to the layer on this path. -/
theorem geometry_error_short_circuit
    (o : Oracle) (l : Layer) (g : Geometry) (ns : List RStr)
    (vs : List FieldValue) (cf : Handle) (rv1 : OGRErr)
    (hcf : cf = o.fCreate l.defn.c_defn)
    (h1 : rv1 = o.setGeometryDirectly cf g.c_geometry)
    (hne : rv1 ≠ OGRErr.NONE) :
    Layer.create_feature o l g =
      .returned (l, .error (.OgrError rv1 "OGR_F_SetGeometryDirectly"))
        [.OGR_F_Create l.defn.c_defn,
         .OGR_F_SetGeometryDirectly cf g.c_geometry] ∧
    Layer.create_feature_fields o l g ns vs =
      .returned (l, .error (.OgrError rv1 "OGR_F_SetGeometryDirectly"))
        [.OGR_F_Create l.defn.c_defn,
         .OGR_F_SetGeometryDirectly cf g.c_geometry] ∧
    ∀ c ∈ ([.OGR_F_Create l.defn.c_defn,
            .OGR_F_SetGeometryDirectly cf g.c_geometry] : List NativeCall),
      isSubmitCall c = false ∧ isSetFieldCall c = false := by
  subst hcf h1
  refine ⟨by simp [Layer.create_feature, hne],
    by simp [Layer.create_feature_fields, hne], ?_⟩
  intro c hc
  simp only [List.mem_cons, List.not_mem_nil, or_false] at hc
  rcases hc with rfl | rfl <;> exact ⟨rfl, rfl⟩

/-- Closed instantiation of `geometry_error_short_circuit` at
`failGeomOracle`, a concrete layer and geometry. -/
theorem geometry_error_short_circuit_witness :
    OGRErr.FAILURE ≠ OGRErr.NONE ∧
    (Layer.create_feature failGeomOracle sampleLayer sampleGeom =
      .returned (sampleLayer,
          .error (.OgrError OGRErr.FAILURE "OGR_F_SetGeometryDirectly"))
        [.OGR_F_Create 107, .OGR_F_SetGeometryDirectly 108 3] ∧
     Layer.create_feature_fields failGeomOracle sampleLayer sampleGeom
        [[97]] [FieldValue.IntegerValue 5] =
      .returned (sampleLayer,
          .error (.OgrError OGRErr.FAILURE "OGR_F_SetGeometryDirectly"))
        [.OGR_F_Create 107, .OGR_F_SetGeometryDirectly 108 3] ∧
     ∀ c ∈ ([.OGR_F_Create 107,
             .OGR_F_SetGeometryDirectly 108 3] : List NativeCall),
       isSubmitCall c = false ∧ isSetFieldCall c = false) :=
  ⟨by decide,
   geometry_error_short_circuit failGeomOracle sampleLayer sampleGeom
     [[97]] [FieldValue.IntegerValue 5] 108 OGRErr.FAILURE rfl rfl
     (by decide)⟩

/-- `FieldDefn::new` either panics on a NUL byte in the name, or returns
the wrapper around the handle `OGR_Fld_Create` allocated, having issued
exactly that one call. -/
theorem new_cases (o : Oracle) (n : RStr) (ft : OGRFieldType) :
    ((0:Nat) ∈ n ∧ FieldDefn.new o n ft = .panicked .unwrapNone []) ∨
    ((0:Nat) ∉ n ∧ FieldDefn.new o n ft =
      .returned { c_obj := o.fldCreate n ft }
        [NativeCall.OGR_Fld_Create n ft]) := by
  by_cases hm : (0:Nat) ∈ n
  · exact Or.inl ⟨hm, by simp [FieldDefn.new, cstringNew, hm]⟩
  · exact Or.inr ⟨hm, by simp [FieldDefn.new, cstringNew, hm]⟩

/-- `add_to_layer` issues exactly one `OGR_L_CreateField` and then either
returns normally (success status) or fails the assertion (any other
status). -/
theorem add_to_layer_cases (o : Oracle) (fd : FieldDefn) (l : Layer) :
    (o.lCreateField l.c_layer fd.c_obj 1 = OGRErr.NONE ∧
      FieldDefn.add_to_layer o fd l =
        .returned () [NativeCall.OGR_L_CreateField l.c_layer fd.c_obj 1]) ∨
    (o.lCreateField l.c_layer fd.c_obj 1 ≠ OGRErr.NONE ∧
      FieldDefn.add_to_layer o fd l =
        .panicked .assertFailed
          [NativeCall.OGR_L_CreateField l.c_layer fd.c_obj 1]) := by
  by_cases hs : o.lCreateField l.c_layer fd.c_obj 1 = OGRErr.NONE
  · exact Or.inl ⟨hs, by simp [FieldDefn.add_to_layer, hs]⟩
  · exact Or.inr ⟨hs, by simp [FieldDefn.add_to_layer, hs]⟩

/-- When every name is NUL-free and every registration status is success,
`create_defn_fields` returns normally with the per-field
create/register/destroy trace. -/
theorem create_defn_fields_all_ok (o : Oracle) (l : Layer) :
    ∀ fields : List (RStr × OGRFieldType),
      (∀ p ∈ fields, (0:Nat) ∉ p.1) →
      (∀ p ∈ fields,
        o.lCreateField l.c_layer (o.fldCreate p.1 p.2) 1 = OGRErr.NONE) →
      Layer.create_defn_fields o l fields =
        .returned () (defnFieldsTrace o l fields) := by
  intro fields
  induction fields with
  | nil => intro _ _; rfl
  | cons fd rest ih =>
    intro hclean hok
    have hn : (0:Nat) ∉ fd.1 := hclean fd (List.mem_cons_self fd rest)
    have hs := hok fd (List.mem_cons_self fd rest)
    have ht3 := ih (fun p hp => hclean p (List.mem_cons_of_mem fd hp))
      (fun p hp => hok p (List.mem_cons_of_mem fd hp))
    rcases new_cases o fd.1 fd.2 with ⟨hm, _⟩ | ⟨_, hnew⟩
    · exact absurd hm hn
    rcases add_to_layer_cases o { c_obj := o.fldCreate fd.1 fd.2 } l with
      ⟨_, hadd⟩ | ⟨hne, _⟩
    · simp only [Layer.create_defn_fields, hnew, hadd, ht3, defnFieldsTrace,
        FieldDefn.drop]
      rfl
    · exact absurd hs hne

/-- If `create_defn_fields` returns normally then every field's
registration status was success. -/
theorem create_defn_fields_returned_all_ok (o : Oracle) (l : Layer) :
    ∀ (fields : List (RStr × OGRFieldType)) (t : List NativeCall),
      Layer.create_defn_fields o l fields = .returned () t →
      ∀ p ∈ fields,
        o.lCreateField l.c_layer (o.fldCreate p.1 p.2) 1 = OGRErr.NONE := by
  intro fields
  induction fields with
  | nil => intro t _ p hp; exact absurd hp (List.not_mem_nil p)
  | cons fd rest ih =>
    intro t h p hp
    rcases new_cases o fd.1 fd.2 with ⟨_, hnew⟩ | ⟨_, hnew⟩ <;>
      simp only [Layer.create_defn_fields, hnew] at h
    · cases h
    rcases add_to_layer_cases o { c_obj := o.fldCreate fd.1 fd.2 } l with
      ⟨hs, hadd⟩ | ⟨_, hadd⟩ <;> simp only [hadd] at h
    · rcases List.mem_cons.mp hp with rfl | hp'
      · exact hs
      · cases hrec : Layer.create_defn_fields o l rest with
        | panicked q t3 => rw [hrec] at h; cases h
        | returned u t3 =>
          cases u
          exact ih t3 hrec p hp'
    · cases h

/-- When the names are NUL-free but some field's registration status is
not success, `create_defn_fields` panics with the failed assertion. -/
theorem create_defn_fields_bad_panics (o : Oracle) (l : Layer) :
    ∀ fields : List (RStr × OGRFieldType),
      (∀ p ∈ fields, (0:Nat) ∉ p.1) →
      ¬(∀ p ∈ fields,
          o.lCreateField l.c_layer (o.fldCreate p.1 p.2) 1 = OGRErr.NONE) →
      ∃ t, Layer.create_defn_fields o l fields =
        .panicked .assertFailed t := by
  intro fields
  induction fields with
  | nil => intro _ hbad; exact absurd (fun p hp => absurd hp (List.not_mem_nil p)) hbad
  | cons fd rest ih =>
    intro hclean hbad
    have hn : (0:Nat) ∉ fd.1 := hclean fd (List.mem_cons_self fd rest)
    rcases new_cases o fd.1 fd.2 with ⟨hm, _⟩ | ⟨_, hnew⟩
    · exact absurd hm hn
    rcases add_to_layer_cases o { c_obj := o.fldCreate fd.1 fd.2 } l with
      ⟨hs, hadd⟩ | ⟨_, hadd⟩
    · have hbad' : ¬(∀ p ∈ rest,
          o.lCreateField l.c_layer (o.fldCreate p.1 p.2) 1 = OGRErr.NONE) := by
        intro hall
        exact hbad (fun p hp => by
          rcases List.mem_cons.mp hp with rfl | hp'
          · exact hs
          · exact hall p hp')
      obtain ⟨t3, ht3⟩ := ih (fun p hp => hclean p (List.mem_cons_of_mem fd hp)) hbad'
      exact ⟨_, by simp only [Layer.create_defn_fields, hnew, hadd, ht3]; rfl⟩
    · exact ⟨_, by simp only [Layer.create_defn_fields, hnew, hadd]; rfl⟩

/-- C3: a non-success status from the native field registration call
(`OGR_L_CreateField`) is never surfaced as a recoverable error:
`add_to_layer` returns normally (no value) on success and fails its
assertion — an unrecoverable panic — otherwise; `create_defn_fields`
(with NUL-free names) returns normally exactly when every registration
status is success, and panics with the failed assertion otherwise. -/
theorem field_registration_asserts
    (o : Oracle) (fd : FieldDefn) (l : Layer)
    (fields : List (RStr × OGRFieldType)) :
    (o.lCreateField l.c_layer fd.c_obj 1 = OGRErr.NONE →
      FieldDefn.add_to_layer o fd l =
        .returned () [NativeCall.OGR_L_CreateField l.c_layer fd.c_obj 1]) ∧
    (o.lCreateField l.c_layer fd.c_obj 1 ≠ OGRErr.NONE →
      FieldDefn.add_to_layer o fd l =
        .panicked .assertFailed
          [NativeCall.OGR_L_CreateField l.c_layer fd.c_obj 1]) ∧
    ((∀ p ∈ fields, (0:Nat) ∉ p.1) →
      ((∃ t, Layer.create_defn_fields o l fields = .returned () t) ↔
        ∀ p ∈ fields,
          o.lCreateField l.c_layer (o.fldCreate p.1 p.2) 1 = OGRErr.NONE)) ∧
    ((∀ p ∈ fields, (0:Nat) ∉ p.1) →
      ¬(∀ p ∈ fields,
          o.lCreateField l.c_layer (o.fldCreate p.1 p.2) 1 = OGRErr.NONE) →
      ∃ t, Layer.create_defn_fields o l fields =
        .panicked .assertFailed t) := by
  refine ⟨?_, ?_, ?_, create_defn_fields_bad_panics o l fields⟩
  · intro hs
    rcases add_to_layer_cases o fd l with ⟨_, hadd⟩ | ⟨hne, _⟩
    · exact hadd
    · exact absurd hs hne
  · intro hne
    rcases add_to_layer_cases o fd l with ⟨hs, _⟩ | ⟨_, hadd⟩
    · exact absurd hs hne
    · exact hadd
  · intro hclean
    constructor
    · rintro ⟨t, ht⟩
      exact create_defn_fields_returned_all_ok o l fields t ht
    · intro hok
      exact ⟨_, create_defn_fields_all_ok o l fields hclean hok⟩

/-- Closed instantiation of `field_registration_asserts`: success at
`okOracle`, assertion failure at `failFieldOracle`, on concrete inputs. -/
theorem field_registration_asserts_witness :
    (FieldDefn.add_to_layer okOracle { c_obj := 51 } sampleLayer =
      .returned () [NativeCall.OGR_L_CreateField 7 51 1]) ∧
    (FieldDefn.add_to_layer failFieldOracle { c_obj := 51 } sampleLayer =
      .panicked .assertFailed [NativeCall.OGR_L_CreateField 7 51 1]) ∧
    (∃ t, Layer.create_defn_fields okOracle sampleLayer [([97], 4)] =
      .returned () t) ∧
    (∃ t, Layer.create_defn_fields failFieldOracle sampleLayer [([97], 4)] =
      .panicked .assertFailed t) :=
  ⟨(field_registration_asserts okOracle { c_obj := 51 } sampleLayer
      [([97], 4)]).1 (by decide),
   (field_registration_asserts failFieldOracle { c_obj := 51 } sampleLayer
      [([97], 4)]).2.1 (by decide),
   ((field_registration_asserts okOracle { c_obj := 51 } sampleLayer
      [([97], 4)]).2.2.1 (by decide)).mpr (by decide),
   (field_registration_asserts failFieldOracle { c_obj := 51 } sampleLayer
      [([97], 4)]).2.2.2 (by decide) (by decide)⟩

/-- The field-setting loop never issues `OGR_Fld_Destroy`. -/
theorem setFeatureFields_no_destroy (o : Oracle) (cf : Handle)
    (vs : List FieldValue) :
    ∀ ps : List (Nat × RStr),
      (setFeatureFields o cf vs ps).trace.countP isDestroyCall = 0 := by
  intro ps
  induction ps with
  | nil => rfl
  | cons p rest ih =>
    obtain ⟨i, fd⟩ := p
    simp only [setFeatureFields]
    cases cstringNew fd with
    | none => rfl
    | some c =>
      dsimp only
      cases vs[i]? with
      | none => rfl
      | some val =>
        dsimp only
        cases val with
        | StringValue v =>
          dsimp only
          cases cstringNew v with
          | none => rfl
          | some cv =>
            dsimp only
            cases hrec : setFeatureFields o cf vs rest with
            | panicked q t2 =>
              rw [hrec] at ih
              simp only [Outcome.trace] at ih ⊢
              simp [List.countP_append, List.countP_cons, isDestroyCall, ih]
            | returned u t2 =>
              cases u
              rw [hrec] at ih
              simp only [Outcome.trace] at ih ⊢
              simp [List.countP_append, List.countP_cons, isDestroyCall, ih]
        | IntegerValue v =>
          dsimp only
          cases hrec : setFeatureFields o cf vs rest with
          | panicked q t2 =>
            rw [hrec] at ih
            simp only [Outcome.trace] at ih ⊢
            simp [List.countP_append, List.countP_cons, isDestroyCall, ih]
          | returned u t2 =>
            cases u
            rw [hrec] at ih
            simp only [Outcome.trace] at ih ⊢
            simp [List.countP_append, List.countP_cons, isDestroyCall, ih]
        | RealValue v =>
          dsimp only
          cases hrec : setFeatureFields o cf vs rest with
          | panicked q t2 =>
            rw [hrec] at ih
            simp only [Outcome.trace] at ih ⊢
            simp [List.countP_append, List.countP_cons, isDestroyCall, ih]
          | returned u t2 =>
            cases u
            rw [hrec] at ih
            simp only [Outcome.trace] at ih ⊢
            simp [List.countP_append, List.countP_cons, isDestroyCall, ih]

/-- C8: `Drop for FieldDefn` issues exactly one `OGR_Fld_Destroy`, on the
wrapper's own handle; in `create_defn_fields` the number of destroy calls
equals the number of `OGR_Fld_Create` calls (each loop-local `FieldDefn`
is destroyed exactly once, including during assertion unwinding); and no
other operation in this file issues `OGR_Fld_Destroy` at all. -/
theorem field_defn_destroyed_exactly_once :
    (∀ fd : FieldDefn, fd.drop = [NativeCall.OGR_Fld_Destroy fd.c_obj]) ∧
    (∀ (o : Oracle) (l : Layer) (fields : List (RStr × OGRFieldType)),
      (Layer.create_defn_fields o l fields).trace.countP isDestroyCall =
        (Layer.create_defn_fields o l fields).trace.countP isFldCreateCall) ∧
    (∀ (o : Oracle) (h : Handle),
      (Layer._with_c_layer o h).2.countP isDestroyCall = 0) ∧
    (∀ (l : Layer) (g : Geometry),
      (l.set_spatial_filter g).2.countP isDestroyCall = 0) ∧
    (∀ l : Layer, l.clear_spatial_filter.2.countP isDestroyCall = 0) ∧
    (∀ (o : Oracle) (it : FeatureIterator) (n : Nat),
      (FeatureIterator.next o it n).2.countP isDestroyCall = 0) ∧
    (∀ (o : Oracle) (l : Layer) (g : Geometry),
      (Layer.create_feature o l g).trace.countP isDestroyCall = 0) ∧
    (∀ (o : Oracle) (l : Layer) (g : Geometry) (ns : List RStr)
        (vs : List FieldValue),
      (Layer.create_feature_fields o l g ns vs).trace.countP
        isDestroyCall = 0) ∧
    (∀ (o : Oracle) (n : RStr) (ft : OGRFieldType),
      (FieldDefn.new o n ft).trace.countP isDestroyCall = 0) ∧
    (∀ (fd : FieldDefn) (w : Int),
      (fd.set_width w).countP isDestroyCall = 0) ∧
    (∀ (fd : FieldDefn) (p : Int),
      (fd.set_precision p).countP isDestroyCall = 0) ∧
    (∀ (o : Oracle) (fd : FieldDefn) (l : Layer),
      (FieldDefn.add_to_layer o fd l).trace.countP isDestroyCall = 0) := by
  refine ⟨fun fd => rfl, ?_, fun o h => rfl, fun l g => rfl, fun l => rfl,
    ?_, ?_, ?_, ?_, fun fd w => rfl, fun fd p => rfl, ?_⟩
  · intro o l fields
    induction fields with
    | nil => rfl
    | cons fd rest ih =>
      rcases new_cases o fd.1 fd.2 with ⟨_, hnew⟩ | ⟨_, hnew⟩ <;>
        simp only [Layer.create_defn_fields, hnew]
      · rfl
      rcases add_to_layer_cases o { c_obj := o.fldCreate fd.1 fd.2 } l with
        ⟨_, hadd⟩ | ⟨_, hadd⟩ <;> simp only [hadd]
      · cases hrec : Layer.create_defn_fields o l rest with
        | panicked q t3 =>
          rw [hrec] at ih
          simp_all [Outcome.trace, List.countP_append, List.countP_cons,
            isDestroyCall, isFldCreateCall, FieldDefn.drop]
        | returned u t3 =>
          cases u
          rw [hrec] at ih
          simp_all [Outcome.trace, List.countP_append, List.countP_cons,
            isDestroyCall, isFldCreateCall, FieldDefn.drop]
      · simp [Outcome.trace, List.countP_append, List.countP_cons,
          isDestroyCall, isFldCreateCall, FieldDefn.drop]
  · intro o it n
    unfold FeatureIterator.next
    cases o.getNextFeature it.layer.c_layer n <;> rfl
  · intro o l g
    simp only [Layer.create_feature]
    split
    · rfl
    · split <;> rfl
  · intro o l g ns vs
    simp only [Layer.create_feature_fields]
    split
    · rfl
    · have hf := setFeatureFields_no_destroy o (o.fCreate l.defn.c_defn)
        vs ns.enum
      cases hrec : setFeatureFields o (o.fCreate l.defn.c_defn) vs ns.enum with
      | panicked q t =>
        rw [hrec] at hf
        simp only [Outcome.trace] at hf ⊢
        simp [List.countP_append, List.countP_cons, isDestroyCall, hf]
      | returned u t =>
        cases u
        rw [hrec] at hf
        simp only [Outcome.trace] at hf
        dsimp only
        split <;>
          (simp only [Outcome.trace]
           simp [List.countP_append, List.countP_cons, isDestroyCall, hf])
  · intro o n ft
    rcases new_cases o n ft with ⟨_, hnew⟩ | ⟨_, hnew⟩ <;> rw [hnew] <;> rfl
  · intro o fd l
    rcases add_to_layer_cases o fd l with ⟨_, hadd⟩ | ⟨_, hadd⟩ <;>
      rw [hadd] <;> rfl

/-- C2 (the claim fails on this code): with mismatched lengths
`create_feature_fields` does not fail with a defined error.  With more
names than values it panics from the out-of-bounds index `values[i]`
(after already mutating the native feature), and with more values than
names it silently ignores the extra values and reports success. -/
theorem mismatched_lengths_no_defined_error :
    (Layer.create_feature_fields okOracle sampleLayer sampleGeom
        [[97], [98]] [FieldValue.IntegerValue 1] =
      .panicked .indexOutOfBounds
        [.OGR_F_Create 107, .OGR_F_SetGeometryDirectly 108 3,
         .OGR_F_GetFieldIndex 108 [97], .OGR_F_SetFieldInteger 108 1 1,
         .OGR_F_GetFieldIndex 108 [98]]) ∧
    (Layer.create_feature_fields okOracle sampleLayer sampleGeom
        [[97]] [FieldValue.IntegerValue 1, FieldValue.IntegerValue 2] =
      .returned (sampleLayer, .ok ())
        [.OGR_F_Create 107, .OGR_F_SetGeometryDirectly 108 3,
         .OGR_F_GetFieldIndex 108 [97], .OGR_F_SetFieldInteger 108 1 1,
         .OGR_L_CreateFeature 7 108]) :=
  ⟨by rfl, by rfl⟩

/-- Dropping `k` elements of `l` reaching `v :: t` pins `l[k]?` and the
next drop. -/
theorem drop_cons_get (α : Type) : ∀ (l : List α) (k : Nat) (v : α)
    (t : List α), l.drop k = v :: t → l[k]? = some v ∧ l.drop (k + 1) = t := by
  intro l
  induction l with
  | nil => intro k v t h; simp [List.drop_nil] at h
  | cons x xs ih =>
    intro k v t h
    cases k with
    | zero =>
      simp only [List.drop_zero] at h
      cases h
      exact ⟨by simp, by simp⟩
    | succ k =>
      simp only [List.drop_succ_cons] at h
      obtain ⟨h1, h2⟩ := ih k v t h
      exact ⟨by simpa using h1, by simpa [List.drop_succ_cons] using h2⟩

/-- When every processed pair is clean (no NUL bytes) and the values list
covers the names, the field-setting loop returns normally and issues
exactly the calls described by `fieldCallsSpec`, in order. -/
theorem setFeatureFields_complete (o : Oracle) (cf : Handle)
    (values : List FieldValue) :
    ∀ (names : List RStr) (k : Nat) (vs : List FieldValue),
      values.drop k = vs →
      names.length ≤ vs.length →
      ((names.zip vs).all fun p => cleanPairB p.1 p.2) = true →
      setFeatureFields o cf values (List.enumFrom k names) =
        .returned () (fieldCallsSpec o cf (names.zip vs)) := by
  intro names
  induction names with
  | nil => intro k vs _ _ _; rfl
  | cons n rest ih =>
    intro k vs hdrop hlen hclean
    cases vs with
    | nil => simp at hlen
    | cons v vs2 =>
      obtain ⟨hget, hdrop2⟩ := drop_cons_get FieldValue values k v vs2 hdrop
      simp only [List.zip_cons_cons, List.all_cons, Bool.and_eq_true] at hclean
      obtain ⟨hcp, hcrest⟩ := hclean
      have hrec := ih (k+1) vs2 hdrop2
        (by simp only [List.length_cons] at hlen; omega) hcrest
      have hn : (0:Nat) ∉ n := by
        cases v <;>
          simp only [cleanPairB, Bool.and_eq_true, decide_eq_true_eq] at hcp <;>
          exact hcp.1
      simp only [List.enumFrom, setFeatureFields]
      rw [show cstringNew n = some n from by simp [cstringNew, hn]]
      dsimp only
      rw [hget]
      dsimp only
      cases v with
      | StringValue sv =>
        have hsv : (0:Nat) ∉ sv := by
          simp only [cleanPairB, Bool.and_eq_true, decide_eq_true_eq] at hcp
          exact hcp.2
        dsimp only
        rw [show cstringNew sv = some sv from by simp [cstringNew, hsv]]
        dsimp only
        rw [hrec]
        simp [fieldCallsSpec, List.zip]
      | IntegerValue iv =>
        dsimp only
        rw [hrec]
        simp [fieldCallsSpec, List.zip]
      | RealValue rv2 =>
        dsimp only
        rw [hrec]
        simp [fieldCallsSpec, List.zip]

/-- C4: with equal-length clean inputs and successful geometry
attachment, `create_feature_fields` processes each `(field_name, value)`
pair in order between attachment and submission: for each pair it
resolves the field index by name (`OGR_F_GetFieldIndex`) and then issues
the set-call selected by the value's variant (string → set-string,
integer → set-integer, real → set-double), exactly as `fieldCallsSpec`
lists, followed by the single submission call. -/
theorem create_feature_fields_ordered_processing
    (o : Oracle) (l : Layer) (g : Geometry) (ns : List RStr)
    (vs : List FieldValue) (cf : Handle)
    (hcf : cf = o.fCreate l.defn.c_defn)
    (hlen : ns.length = vs.length)
    (hclean : ((ns.zip vs).all fun p => cleanPairB p.1 p.2) = true)
    (hgeom : o.setGeometryDirectly cf g.c_geometry = OGRErr.NONE) :
    ∃ r, Layer.create_feature_fields o l g ns vs =
      .returned r
        ([NativeCall.OGR_F_Create l.defn.c_defn,
          NativeCall.OGR_F_SetGeometryDirectly cf g.c_geometry] ++
         fieldCallsSpec o cf (ns.zip vs) ++
         [NativeCall.OGR_L_CreateFeature l.c_layer cf]) := by
  subst hcf
  have hfields := setFeatureFields_complete o (o.fCreate l.defn.c_defn) vs
    ns 0 vs rfl (le_of_eq hlen) hclean
  simp only [Layer.create_feature_fields]
  rw [if_neg (by simp [hgeom])]
  rw [show ns.enum = List.enumFrom 0 ns from rfl]
  rw [hfields]
  dsimp only
  split
  · exact ⟨(l, .error (.OgrError
      (o.lCreateFeature l.c_layer (o.fCreate l.defn.c_defn))
      "OGR_L_CreateFeature")), by simp⟩
  · exact ⟨(l, .ok ()), by simp⟩

/-- Closed instantiation of `create_feature_fields_ordered_processing`
at a concrete oracle, layer, geometry, names and values. -/
theorem create_feature_fields_ordered_processing_witness :
    ∃ r, Layer.create_feature_fields okOracle sampleLayer sampleGeom
        [[97], [98]] [FieldValue.StringValue [120], FieldValue.RealValue 2] =
      .returned r
        ([NativeCall.OGR_F_Create 107,
          NativeCall.OGR_F_SetGeometryDirectly 108 3] ++
         fieldCallsSpec okOracle 108
           ([[97], [98]].zip
             [FieldValue.StringValue [120], FieldValue.RealValue 2]) ++
         [NativeCall.OGR_L_CreateFeature 7 108]) :=
  create_feature_fields_ordered_processing okOracle sampleLayer sampleGeom
    [[97], [98]] [FieldValue.StringValue [120], FieldValue.RealValue 2]
    108 rfl rfl (by decide) rfl

/-- If some processed field name contains a NUL byte (all earlier pairs
clean and covered by values), the field-setting loop panics from
`CString::new(..).unwrap()`. -/
theorem setFeatureFields_nul_name (o : Oracle) (cf : Handle)
    (values : List FieldValue) :
    ∀ (pre : List RStr) (k : Nat) (vpre vrest : List FieldValue)
      (n : RStr) (suf : List RStr),
      values.drop k = vpre ++ vrest →
      pre.length = vpre.length →
      ((pre.zip vpre).all fun p => cleanPairB p.1 p.2) = true →
      (0:Nat) ∈ n →
      ∃ t, setFeatureFields o cf values
          (List.enumFrom k (pre ++ n :: suf)) =
        .panicked .unwrapNone t := by
  intro pre
  induction pre with
  | nil =>
    intro k vpre vrest n suf hdrop hlen hclean hnul
    refine ⟨[], ?_⟩
    simp only [List.nil_append, List.enumFrom, setFeatureFields]
    rw [show cstringNew n = none from by simp [cstringNew, hnul]]
  | cons p pre2 ih =>
    intro k vpre vrest n suf hdrop hlen hclean hnul
    cases vpre with
    | nil => simp at hlen
    | cons v vpre2 =>
      have hdrop1 : values.drop k = v :: (vpre2 ++ vrest) := by
        simpa using hdrop
      obtain ⟨hget, hdrop2⟩ :=
        drop_cons_get FieldValue values k v (vpre2 ++ vrest) hdrop1
      simp only [List.zip_cons_cons, List.all_cons, Bool.and_eq_true] at hclean
      obtain ⟨hcp, hcrest⟩ := hclean
      obtain ⟨t, ht⟩ := ih (k+1) vpre2 vrest n suf hdrop2
        (by simp only [List.length_cons] at hlen; omega) hcrest hnul
      have hp : (0:Nat) ∉ p := by
        cases v <;>
          simp only [cleanPairB, Bool.and_eq_true, decide_eq_true_eq] at hcp <;>
          exact hcp.1
      cases v with
      | StringValue sv =>
        have hsv : (0:Nat) ∉ sv := by
          simp only [cleanPairB, Bool.and_eq_true, decide_eq_true_eq] at hcp
          exact hcp.2
        exact ⟨_, by
          simp only [List.cons_append, List.enumFrom, setFeatureFields]
          rw [show cstringNew p = some p from by simp [cstringNew, hp]]
          dsimp only
          rw [hget]
          dsimp only
          rw [show cstringNew sv = some sv from by simp [cstringNew, hsv]]
          dsimp only
          simp only [List.append_eq]
          rw [ht]⟩
      | IntegerValue iv =>
        exact ⟨_, by
          simp only [List.cons_append, List.enumFrom, setFeatureFields]
          rw [show cstringNew p = some p from by simp [cstringNew, hp]]
          dsimp only
          rw [hget]
          dsimp only
          simp only [List.append_eq]
          rw [ht]⟩
      | RealValue rv2 =>
        exact ⟨_, by
          simp only [List.cons_append, List.enumFrom, setFeatureFields]
          rw [show cstringNew p = some p from by simp [cstringNew, hp]]
          dsimp only
          rw [hget]
          dsimp only
          simp only [List.append_eq]
          rw [ht]⟩

/-- If some processed pair has a clean name but a `StringValue` payload
containing a NUL byte (all earlier pairs clean and covered by values),
the field-setting loop panics from `CString::new(..).unwrap()`. -/
theorem setFeatureFields_nul_string (o : Oracle) (cf : Handle)
    (values : List FieldValue) :
    ∀ (pre : List RStr) (k : Nat) (vpre vrest : List FieldValue)
      (n sv : RStr) (suf : List RStr),
      values.drop k = vpre ++ FieldValue.StringValue sv :: vrest →
      pre.length = vpre.length →
      ((pre.zip vpre).all fun p => cleanPairB p.1 p.2) = true →
      (0:Nat) ∉ n →
      (0:Nat) ∈ sv →
      ∃ t, setFeatureFields o cf values
          (List.enumFrom k (pre ++ n :: suf)) =
        .panicked .unwrapNone t := by
  intro pre
  induction pre with
  | nil =>
    intro k vpre vrest n sv suf hdrop hlen hcleanz hn hnul
    have hvpre : vpre = [] := List.length_eq_zero.mp hlen.symm
    subst hvpre
    have hdrop1 : values.drop k = FieldValue.StringValue sv :: vrest := by
      simpa using hdrop
    obtain ⟨hget, _⟩ :=
      drop_cons_get FieldValue values k (FieldValue.StringValue sv) vrest hdrop1
    exact ⟨_, by
      simp only [List.nil_append, List.enumFrom, setFeatureFields]
      rw [show cstringNew n = some n from by simp [cstringNew, hn]]
      dsimp only
      rw [hget]
      dsimp only
      rw [show cstringNew sv = none from by simp [cstringNew, hnul]]⟩
  | cons p pre2 ih =>
    intro k vpre vrest n sv suf hdrop hlen hclean hn hnul
    cases vpre with
    | nil => simp at hlen
    | cons v vpre2 =>
      have hdrop1 : values.drop k =
          v :: (vpre2 ++ FieldValue.StringValue sv :: vrest) := by
        simpa using hdrop
      obtain ⟨hget, hdrop2⟩ := drop_cons_get FieldValue values k v
        (vpre2 ++ FieldValue.StringValue sv :: vrest) hdrop1
      simp only [List.zip_cons_cons, List.all_cons, Bool.and_eq_true] at hclean
      obtain ⟨hcp, hcrest⟩ := hclean
      obtain ⟨t, ht⟩ := ih (k+1) vpre2 vrest n sv suf hdrop2
        (by simp only [List.length_cons] at hlen; omega) hcrest hn hnul
      have hp : (0:Nat) ∉ p := by
        cases v <;>
          simp only [cleanPairB, Bool.and_eq_true, decide_eq_true_eq] at hcp <;>
          exact hcp.1
      cases v with
      | StringValue sv2 =>
        have hsv2 : (0:Nat) ∉ sv2 := by
          simp only [cleanPairB, Bool.and_eq_true, decide_eq_true_eq] at hcp
          exact hcp.2
        exact ⟨_, by
          simp only [List.cons_append, List.enumFrom, setFeatureFields]
          rw [show cstringNew p = some p from by simp [cstringNew, hp]]
          dsimp only
          rw [hget]
          dsimp only
          rw [show cstringNew sv2 = some sv2 from by simp [cstringNew, hsv2]]
          dsimp only
          simp only [List.append_eq]
          rw [ht]⟩
      | IntegerValue iv =>
        exact ⟨_, by
          simp only [List.cons_append, List.enumFrom, setFeatureFields]
          rw [show cstringNew p = some p from by simp [cstringNew, hp]]
          dsimp only
          rw [hget]
          dsimp only
          simp only [List.append_eq]
          rw [ht]⟩
      | RealValue rv2 =>
        exact ⟨_, by
          simp only [List.cons_append, List.enumFrom, setFeatureFields]
          rw [show cstringNew p = some p from by simp [cstringNew, hp]]
          dsimp only
          rw [hget]
          dsimp only
          simp only [List.append_eq]
          rw [ht]⟩

/-- C10: `FieldDefn::new` and `create_feature_fields` build C strings
with `CString::new(..).unwrap()`: a NUL byte in the field-defn name, in a
processed field name, or in a processed `StringValue` payload makes the
operation panic (`unwrap` of the `NulError`) instead of returning a
recoverable error. -/
theorem cstring_nul_panics
    (o : Oracle) (name : RStr) (ft : OGRFieldType) (l : Layer)
    (g : Geometry) (pre suf : List RStr) (vpre vrest : List FieldValue)
    (n sv : RStr)
    (hpre : pre.length = vpre.length)
    (hclean : ((pre.zip vpre).all fun p => cleanPairB p.1 p.2) = true)
    (hgeom : o.setGeometryDirectly (o.fCreate l.defn.c_defn) g.c_geometry =
      OGRErr.NONE) :
    ((0:Nat) ∈ name →
      FieldDefn.new o name ft = .panicked .unwrapNone []) ∧
    ((0:Nat) ∈ n →
      ∃ t, Layer.create_feature_fields o l g (pre ++ n :: suf)
          (vpre ++ vrest) =
        .panicked .unwrapNone t) ∧
    ((0:Nat) ∉ n → (0:Nat) ∈ sv →
      ∃ t, Layer.create_feature_fields o l g (pre ++ n :: suf)
          (vpre ++ FieldValue.StringValue sv :: vrest) =
        .panicked .unwrapNone t) := by
  refine ⟨?_, ?_, ?_⟩
  · intro hnul
    rcases new_cases o name ft with ⟨_, hnew⟩ | ⟨hok, _⟩
    · exact hnew
    · exact absurd hnul hok
  · intro hnul
    obtain ⟨t, ht⟩ := setFeatureFields_nul_name o (o.fCreate l.defn.c_defn)
      (vpre ++ vrest) pre 0 vpre vrest n suf rfl hpre hclean hnul
    exact ⟨_, by
      simp only [Layer.create_feature_fields]
      rw [if_neg (by simp [hgeom])]
      rw [show (pre ++ n :: suf).enum =
        List.enumFrom 0 (pre ++ n :: suf) from rfl]
      rw [ht]⟩
  · intro hn hnul
    obtain ⟨t, ht⟩ := setFeatureFields_nul_string o (o.fCreate l.defn.c_defn)
      (vpre ++ FieldValue.StringValue sv :: vrest) pre 0 vpre vrest n sv suf
      rfl hpre hclean hn hnul
    exact ⟨_, by
      simp only [Layer.create_feature_fields]
      rw [if_neg (by simp [hgeom])]
      rw [show (pre ++ n :: suf).enum =
        List.enumFrom 0 (pre ++ n :: suf) from rfl]
      rw [ht]⟩

/-- Closed instantiation of `cstring_nul_panics`: a NUL byte in a
field-defn name, in a field name, and in a string field value, each at
concrete inputs. -/
theorem cstring_nul_panics_witness :
    (FieldDefn.new okOracle [0] 4 = .panicked .unwrapNone []) ∧
    (∃ t, Layer.create_feature_fields okOracle sampleLayer sampleGeom
        ([] ++ [0] :: []) ([] ++ [FieldValue.IntegerValue 1]) =
      .panicked .unwrapNone t) ∧
    (∃ t, Layer.create_feature_fields okOracle sampleLayer sampleGeom
        ([] ++ [97] :: []) ([] ++ FieldValue.StringValue [0] :: []) =
      .panicked .unwrapNone t) :=
  ⟨(cstring_nul_panics okOracle [0] 4 sampleLayer sampleGeom [] []
      [] [FieldValue.IntegerValue 1] [0] [0] rfl rfl rfl).1 (by decide),
   (cstring_nul_panics okOracle [0] 4 sampleLayer sampleGeom [] []
      [] [FieldValue.IntegerValue 1] [0] [0] rfl rfl rfl).2.1 (by decide),
   (cstring_nul_panics okOracle [0] 4 sampleLayer sampleGeom [] []
      [] [] [97] [0] rfl rfl rfl).2.2 (by decide) (by decide)⟩

end GdalLayer
